import Mathlib

/-!
Verification development for the nvvk library (NVIDIA Vulkan extensions
wrapper: frame generation + low-latency frame pacing).

The repository ships the public C API headers (`nvvk.h`,
`nvvk_frame_generation.h`, `nvvk_low_latency.h`, `nvvk_diagnostics.h`).
Enumerations, structs and the `static inline` diagnostics-flag helpers are
embedded directly from those headers.  The behavioural components
(FrameHistoryBuffer, SceneChangeDetector, Interpolator,
LatencyMarkerTracker, PacingController, PresentationSequencer,
StatsAggregator) have no implementation under the headers, so they are
modelled from the specification document; each such definition is marked
`Modelled from the spec:`.
-/

namespace Nvvk

/-- Result codes, embedded from `nvvk.h` lines 27-35 (`NvvkResult`). -/
inductive NvvkResult where
  | NVVK_SUCCESS
  | NVVK_ERROR_NOT_SUPPORTED
  | NVVK_ERROR_INVALID_HANDLE
  | NVVK_ERROR_OUT_OF_MEMORY
  | NVVK_ERROR_DEVICE_LOST
  | NVVK_ERROR_UNKNOWN
deriving DecidableEq, Fintype

/-- The integer value each `NvvkResult` enumerator has in `nvvk.h`. -/
def NvvkResult.code : NvvkResult → Int
  | .NVVK_SUCCESS => 0
  | .NVVK_ERROR_NOT_SUPPORTED => -1
  | .NVVK_ERROR_INVALID_HANDLE => -2
  | .NVVK_ERROR_OUT_OF_MEMORY => -3
  | .NVVK_ERROR_DEVICE_LOST => -4
  | .NVVK_ERROR_UNKNOWN => -5

/-- All six result codes, in declaration order (`nvvk.h`). -/
def allResults : List NvvkResult :=
  [.NVVK_SUCCESS, .NVVK_ERROR_NOT_SUPPORTED, .NVVK_ERROR_INVALID_HANDLE,
   .NVVK_ERROR_OUT_OF_MEMORY, .NVVK_ERROR_DEVICE_LOST, .NVVK_ERROR_UNKNOWN]

/-- Frame generation quality modes, embedded from
`nvvk_frame_generation.h` lines 25-30 (`NvvkFrameGenMode`). -/
inductive NvvkFrameGenMode where
  | NVVK_FRAME_GEN_OFF
  | NVVK_FRAME_GEN_PERFORMANCE
  | NVVK_FRAME_GEN_BALANCED
  | NVVK_FRAME_GEN_QUALITY
deriving DecidableEq

/-- Latency markers, embedded from `nvvk_low_latency.h` lines 23-36
(`NvvkLatencyMarker`). -/
inductive NvvkLatencyMarker where
  | SIMULATION_START
  | SIMULATION_END
  | RENDERSUBMIT_START
  | RENDERSUBMIT_END
  | PRESENT_START
  | PRESENT_END
  | INPUT_SAMPLE
  | TRIGGER_FLASH
  | OUT_OF_BAND_RENDERSUBMIT_START
  | OUT_OF_BAND_RENDERSUBMIT_END
  | OUT_OF_BAND_PRESENT_START
  | OUT_OF_BAND_PRESENT_END
deriving DecidableEq

/-- Frame generation statistics, embedded from
`nvvk_frame_generation.h` lines 33-39 (`NvvkFrameGenStats`).
The C `float confidence` is modelled by an exact rational. -/
structure NvvkFrameGenStats where
  generated_frames : Nat
  skipped_frames : Nat
  avg_gen_time_us : Nat
  confidence : ℚ
  scene_change_detected : Bool
deriving DecidableEq

/-- Generated frame result, embedded from
`nvvk_frame_generation.h` lines 42-49 (`NvvkGeneratedFrame`). -/
structure NvvkGeneratedFrame where
  image_view : Nat
  image : Nat
  confidence : ℚ
  generation_time_us : Nat
  frame_id : Nat
  should_present : Bool
deriving DecidableEq

/-- Diagnostics config flag, embedded from `nvvk_diagnostics.h` line 35. -/
def NVVK_DIAGNOSTICS_CONFIG_ENABLE_SHADER_DEBUG : Nat := 0x00000001

/-- Diagnostics config flag, embedded from `nvvk_diagnostics.h` line 36. -/
def NVVK_DIAGNOSTICS_CONFIG_ENABLE_RESOURCE_TRACKING : Nat := 0x00000002

/-- Diagnostics config flag, embedded from `nvvk_diagnostics.h` line 37. -/
def NVVK_DIAGNOSTICS_CONFIG_ENABLE_AUTOMATIC_CHECKPOINTS : Nat := 0x00000004

/-- Diagnostics config flag, embedded from `nvvk_diagnostics.h` line 38. -/
def NVVK_DIAGNOSTICS_CONFIG_ENABLE_SHADER_ERROR_REPORTING : Nat := 0x00000008

/-- Embedded from `nvvk_diagnostics.h` lines 99-104: the `static inline`
function returning the OR of all four diagnostics config flags. -/
def nvvk_diagnostics_get_full_config_flags : Nat :=
  NVVK_DIAGNOSTICS_CONFIG_ENABLE_SHADER_DEBUG |||
  NVVK_DIAGNOSTICS_CONFIG_ENABLE_RESOURCE_TRACKING |||
  NVVK_DIAGNOSTICS_CONFIG_ENABLE_AUTOMATIC_CHECKPOINTS |||
  NVVK_DIAGNOSTICS_CONFIG_ENABLE_SHADER_ERROR_REPORTING

/-- Embedded from `nvvk_diagnostics.h` lines 110-112: the `static inline`
function returning only the automatic-checkpoints flag. -/
def nvvk_diagnostics_get_minimal_config_flags : Nat :=
  NVVK_DIAGNOSTICS_CONFIG_ENABLE_AUTOMATIC_CHECKPOINTS

/-- Modelled from the spec: a `Frame` (spec §3 data model).  The
implementation behind the headers is missing, so the frame record is taken
from the spec's data model: a monotonically increasing id, a borrowed
image handle, and a real/generated tag.  The timestamp and motion field
are irrelevant to the claims and omitted from presentation bookkeeping. -/
structure Frame where
  id : Nat
  image : Nat
  is_generated : Bool
deriving DecidableEq

/-- Modelled from the spec: one block of a `MotionField` (spec §3):
a validity bit (non-occluded, in-bounds) and the local estimation
confidence from the mask. -/
structure MotionBlock where
  valid : Bool
  conf : ℚ
deriving DecidableEq

/-- Modelled from the spec: a `MotionField` is a collection of per-block
displacement data; only validity and per-block confidence matter here. -/
abbrev MotionField : Type := List MotionBlock

/-- Modelled from the spec: the `SceneChangeDetector.classify` verdict
(spec §4.3): `Continuous` or `SceneChange`. -/
inductive Classification where
  | Continuous
  | SceneChange
deriving DecidableEq

/-- Modelled from the spec: the `FrameHistoryBuffer` (spec §4.1) is the
list of the at-most-two most recently pushed real frames, newest first. -/
abbrev FrameHistoryBuffer : Type := List Frame

/-- Modelled from the spec: the empty history buffer produced by `init`. -/
def initBuffer : FrameHistoryBuffer := []

/-- Modelled from the spec: a reset empties the history buffer, so the next
real frame is the first one after the reset (spec §4.1). -/
def resetBuffer (_b : FrameHistoryBuffer) : FrameHistoryBuffer := []

/-- Modelled from the spec: `push(frame)` replaces the older of the two
stored frames, or fills an empty slot; the buffer never holds more than
two frames (spec §3 invariants, §4.1). -/
def pushFrame (f : Frame) (b : FrameHistoryBuffer) : FrameHistoryBuffer :=
  (f :: b).take 2

/-- Modelled from the spec: `pair()` returns the two most recent real
frames as `(prev, curr)`, or `none` until two real frames exist
(spec §4.1). -/
def pairOf : FrameHistoryBuffer → Option (Frame × Frame)
  | c :: p :: _ => some (p, c)
  | _ => none

/-- Clamp a rational into `[0, 1]`. -/
def clamp01 (q : ℚ) : ℚ := max 0 (min 1 q)

/-- Modelled from the spec: the Interpolator's confidence score
(spec §4.4) — computed from the fraction of valid (non-occluded,
in-bounds) motion vectors weighted by the local estimation confidence
mask.  Each valid block contributes its clamped mask confidence;
invalid blocks contribute zero. -/
def computeConfidence (field : MotionField) : ℚ :=
  if field.length = 0 then 0
  else (((field.filter (fun b => b.valid)).map (fun b => clamp01 b.conf)).sum)
        / (field.length : ℚ)

/-- Modelled from the spec: `Interpolator.generate` (spec §4.4).  The image
synthesis itself (warping/blending) is out of scope; the generated frame
carries the computed confidence, the measured generation time, the frame
id assigned by the sequencer, and `should_present = false` exactly when
the confidence is below the configured floor. -/
def generate (_prev curr : Frame) (field : MotionField)
    (_mode : NvvkFrameGenMode) (_t : ℚ) (gen_time_us : Nat)
    (conf_floor : ℚ) (next_id : Nat) : NvvkGeneratedFrame :=
  let c := computeConfidence field
  { image_view := curr.image
    image := curr.image
    confidence := c
    generation_time_us := gen_time_us
    frame_id := next_id
    should_present := decide (conf_floor ≤ c) }

/-- Modelled from the spec: the StatsAggregator's exponential moving
average with smoothing factor `alpha` (spec §3, `Stats`). -/
def ema (alpha old x : ℚ) : ℚ := alpha * x + (1 - alpha) * old

/-- Modelled from the spec: integer EMA used for `avg_gen_time_us`
(spec §3: `avg_gen_time_us (EMA)`), with smoothing factor one half in
integer arithmetic. -/
def emaNat (old x : Nat) : Nat := (old + x) / 2

/-- Modelled from the spec: the frame-generation context
(spec §3, `FrameGenContext`), holding the quality mode, the enabled flag,
the frame history, the stats block, the presentation sequencer's next
frame id, and the tunable EMA factor and confidence floor
(spec §9: tunables, not hard-coded constants). -/
structure EngineState where
  mode : NvvkFrameGenMode
  enabled : Bool
  history : FrameHistoryBuffer
  stats : NvvkFrameGenStats
  nextId : Nat
  ema_alpha : ℚ
  conf_floor : ℚ

/-- Modelled from the spec: one real-frame submission's inputs — the
rendered image handle, the motion field the MotionEstimationPort produced
for the newest pair, the SceneChangeDetector verdict, and the measured
generation cost for this interval. -/
structure StepInput where
  image : Nat
  field : MotionField
  cls : Classification
  gen_time_us : Nat

/-- Modelled from the spec: one step of the PresentationSequencer
(spec §4.7) driven by a real-frame submission.  If no previous real frame
exists, the real frame is presented alone.  Otherwise, when the engine is
on and the detector reports `Continuous` and the generated frame's
confidence reaches the floor, the generated frame is presented with the
next id and the real frame with the id after it; on `SceneChange` (or low
confidence) no generated frame is presented, `skipped_frames` increments,
and ids still advance by exactly one for the real frame. -/
def step (st : EngineState) (inp : StepInput) : List Frame × EngineState :=
  match st.history.head? with
  | none =>
      let curr : Frame := ⟨st.nextId, inp.image, false⟩
      ([curr],
       { st with history := pushFrame curr st.history, nextId := st.nextId + 1 })
  | some prev =>
      if st.mode ≠ .NVVK_FRAME_GEN_OFF ∧ st.enabled then
        match inp.cls with
        | .SceneChange =>
            let curr : Frame := ⟨st.nextId, inp.image, false⟩
            ([curr],
             { st with history := pushFrame curr st.history,
                       nextId := st.nextId + 1,
                       stats := { st.stats with
                         skipped_frames := st.stats.skipped_frames + 1,
                         scene_change_detected := true } })
        | .Continuous =>
            let g := generate prev ⟨st.nextId + 1, inp.image, false⟩ inp.field
                       st.mode (1 / 2) inp.gen_time_us st.conf_floor st.nextId
            if g.should_present then
              let genF : Frame := ⟨g.frame_id, g.image, true⟩
              let curr : Frame := ⟨st.nextId + 1, inp.image, false⟩
              ([genF, curr],
               { st with history := pushFrame curr st.history,
                         nextId := st.nextId + 2,
                         stats := { st.stats with
                           generated_frames := st.stats.generated_frames + 1,
                           avg_gen_time_us :=
                             emaNat st.stats.avg_gen_time_us g.generation_time_us,
                           confidence :=
                             ema st.ema_alpha st.stats.confidence g.confidence } })
            else
              let curr : Frame := ⟨st.nextId, inp.image, false⟩
              ([curr],
               { st with history := pushFrame curr st.history,
                         nextId := st.nextId + 1,
                         stats := { st.stats with
                           skipped_frames := st.stats.skipped_frames + 1 } })
      else
        let curr : Frame := ⟨st.nextId, inp.image, false⟩
        ([curr],
         { st with history := pushFrame curr st.history, nextId := st.nextId + 1 })

/-- Modelled from the spec: a whole run of real-frame submissions through
the sequencer, concatenating the presented frames in order. -/
def run (st : EngineState) : List StepInput → List Frame × EngineState
  | [] => ([], st)
  | i :: rest =>
      let p := step st i
      let q := run p.2 rest
      (p.1 ++ q.1, q.2)

/-- Modelled from the spec: `get_stats` returns the stats snapshot;
`scene_change_detected` is true for exactly the next stats read and is
cleared by that read (spec §4.3). -/
def nvvk_frame_gen_get_stats (st : EngineState) :
    NvvkFrameGenStats × EngineState :=
  (st.stats,
   { st with stats := { st.stats with scene_change_detected := false } })

/-- Modelled from the spec: `get_latency_compensation` (spec §4.6, §8) —
zero when `mode = Off` or the engine is disabled, otherwise the
compensation offset derived from `avg_gen_time_us`. -/
def nvvk_frame_gen_get_latency_compensation (st : EngineState) : Nat :=
  if st.mode = .NVVK_FRAME_GEN_OFF ∨ st.enabled = false then 0
  else st.stats.avg_gen_time_us

/-- Position of a marker in the primary-channel required order
(spec §4.5): `InputSample → SimStart → SimEnd → RenderSubmitStart →
RenderSubmitEnd → PresentStart → PresentEnd`; markers outside the primary
sequence have no position. -/
def primaryPos : NvvkLatencyMarker → Option Nat
  | .INPUT_SAMPLE => some 0
  | .SIMULATION_START => some 1
  | .SIMULATION_END => some 2
  | .RENDERSUBMIT_START => some 3
  | .RENDERSUBMIT_END => some 4
  | .PRESENT_START => some 5
  | .PRESENT_END => some 6
  | _ => none

/-- Position of a marker in the independent out-of-band channel
(spec §4.5). -/
def oobPos : NvvkLatencyMarker → Option Nat
  | .OUT_OF_BAND_RENDERSUBMIT_START => some 0
  | .OUT_OF_BAND_RENDERSUBMIT_END => some 1
  | .OUT_OF_BAND_PRESENT_START => some 2
  | .OUT_OF_BAND_PRESENT_END => some 3
  | _ => none

/-- Modelled from the spec: the marker a given marker requires to have been
recorded first — `PresentEnd` may not be recorded before
`RenderSubmitStart` for the same frame id (spec §4.5, §8). -/
def requiredBefore : NvvkLatencyMarker → Option NvvkLatencyMarker
  | .PRESENT_END => some .RENDERSUBMIT_START
  | .OUT_OF_BAND_PRESENT_END => some .OUT_OF_BAND_RENDERSUBMIT_START
  | _ => none

/-- Whether all already-recorded markers in the same channel come strictly
before `m` in the channel's declared sequence. -/
def channelOk (pos : NvvkLatencyMarker → Option Nat)
    (recorded : List NvvkLatencyMarker) (m : NvvkLatencyMarker) : Bool :=
  match pos m with
  | none => true
  | some p => recorded.all (fun r =>
      match pos r with
      | none => true
      | some q => decide (q < p))

/-- Modelled from the spec: whether marker `m` may be recorded given the
already-recorded markers of the same frame id (spec §4.5): order within
each channel must be monotonic (sparse recording allowed), and
`PresentEnd` additionally requires `RenderSubmitStart` to already be
recorded. -/
def canRecord (recorded : List NvvkLatencyMarker)
    (m : NvvkLatencyMarker) : Bool :=
  channelOk primaryPos recorded m &&
  channelOk oobPos recorded m &&
  (match requiredBefore m with
   | none => true
   | some req => decide (req ∈ recorded))

/-- Modelled from the spec: the result of a marker-recording attempt —
accepted, or rejected as an invalid-usage error (spec §7(b)). -/
inductive MarkerResult where
  | ok
  | invalidUsage
deriving DecidableEq

/-- Modelled from the spec: the `LatencyMarkerTracker` (spec §4.5) —
per-frame-id record of the markers recorded so far, in recording order. -/
structure LLTracker where
  recorded : Nat → List NvvkLatencyMarker

/-- Modelled from the spec: the low-latency context (spec §6): the current
frame (present) id, the marker tracker, the support / device-lost /
enable state used by the pacing controller (spec §4.6, §7). -/
structure LowLatencyCtx where
  currentFrameId : Nat
  tracker : LLTracker
  supported : Bool
  deviceLost : Bool
  llEnabled : Bool
  boost : Bool
  minIntervalUs : Nat

/-- Modelled from the spec: `nvvk_low_latency_set_marker` records a marker
for the given frame id; an out-of-order marker is rejected as an
invalid-usage error and leaves the whole tracker unchanged
(spec §4.5, §7(b)). -/
def nvvk_low_latency_set_marker (t : LLTracker) (id : Nat)
    (m : NvvkLatencyMarker) : MarkerResult × LLTracker :=
  if canRecord (t.recorded id) m then
    (.ok, ⟨fun j => if j = id then t.recorded id ++ [m] else t.recorded j⟩)
  else
    (.invalidUsage, t)

/-- Modelled from the spec: `nvvk_low_latency_begin_frame` (spec §4.5,
`nvvk_low_latency.h` lines 129-133): increments the present id, records
`SimStart` for the new id, and returns the new id.  It never blocks:
an unfinalized previous frame is a stats-visible condition, not a
failure. -/
def nvvk_low_latency_begin_frame (ctx : LowLatencyCtx) :
    Nat × LowLatencyCtx :=
  let id := ctx.currentFrameId + 1
  let r := nvvk_low_latency_set_marker ctx.tracker id .SIMULATION_START
  (id, { ctx with currentFrameId := id, tracker := r.2 })

/-- Modelled from the spec: `nvvk_low_latency_enable` (spec §7):
device-lost contexts answer `DEVICE_LOST`, unsupported contexts answer
`NOT_SUPPORTED`, otherwise pacing is enabled and `SUCCESS` returned. -/
def nvvk_low_latency_enable (ctx : LowLatencyCtx) (boost : Bool)
    (min_interval_us : Nat) : NvvkResult × LowLatencyCtx :=
  if ctx.deviceLost then (.NVVK_ERROR_DEVICE_LOST, ctx)
  else if ctx.supported = false then (.NVVK_ERROR_NOT_SUPPORTED, ctx)
  else (.NVVK_SUCCESS,
        { ctx with llEnabled := true, boost := boost,
                   minIntervalUs := min_interval_us })

/-- Modelled from the spec: a low-latency context whose tracker has no rows
for ids above the current present id — the normal situation, since ids
beyond the current one have not been allocated yet (spec §4.5). -/
def FreshIds (ctx : LowLatencyCtx) : Prop :=
  ∀ j, ctx.currentFrameId < j → ctx.tracker.recorded j = []

/-- Zero-initialised statistics block, as after `nvvk_frame_gen_init`. -/
def statsInit : NvvkFrameGenStats :=
  { generated_frames := 0, skipped_frames := 0, avg_gen_time_us := 0,
    confidence := 0, scene_change_detected := false }

/-- A concrete real frame used to instantiate the theorems. -/
def frame0 : Frame := { id := 0, image := 100, is_generated := false }

/-- A concrete engine state: performance mode, enabled, one real frame in
history, the next presentation id being 1. -/
def stW : EngineState :=
  { mode := .NVVK_FRAME_GEN_PERFORMANCE, enabled := true,
    history := [frame0], stats := statsInit, nextId := 1,
    ema_alpha := 1 / 2, conf_floor := 1 / 2 }

/-- A concrete engine state with `mode = Off`. -/
def stOff : EngineState :=
  { mode := .NVVK_FRAME_GEN_OFF, enabled := true,
    history := [], stats := statsInit, nextId := 0,
    ema_alpha := 1 / 2, conf_floor := 1 / 2 }

/-- A concrete continuous-interval submission with a fully valid,
fully confident one-block motion field. -/
def inpW : StepInput :=
  { image := 101, field := [{ valid := true, conf := 1 }],
    cls := .Continuous, gen_time_us := 500 }

/-- A concrete scene-change submission. -/
def inpSC : StepInput :=
  { image := 102, field := [], cls := .SceneChange, gen_time_us := 0 }

/-- An empty marker tracker. -/
def tracker0 : LLTracker := ⟨fun _ => []⟩

/-- A concrete freshly initialised low-latency context. -/
def ctx0 : LowLatencyCtx :=
  { currentFrameId := 0, tracker := tracker0, supported := true,
    deviceLost := false, llEnabled := false, boost := false,
    minIntervalUs := 0 }

/-- C10: `nvvk_diagnostics_get_full_config_flags()` always returns the OR
of all four diagnostics config flags (0x0000000F),
`nvvk_diagnostics_get_minimal_config_flags()` returns exactly
`NVVK_DIAGNOSTICS_CONFIG_ENABLE_AUTOMATIC_CHECKPOINTS` (0x00000004), and
the minimal flags are a subset of the full flags
(minimal AND full = minimal). -/
theorem C10_diagnostics_flags :
    nvvk_diagnostics_get_full_config_flags = 0x0000000F ∧
    nvvk_diagnostics_get_minimal_config_flags =
      NVVK_DIAGNOSTICS_CONFIG_ENABLE_AUTOMATIC_CHECKPOINTS ∧
    nvvk_diagnostics_get_minimal_config_flags = 0x00000004 ∧
    nvvk_diagnostics_get_minimal_config_flags &&&
        nvvk_diagnostics_get_full_config_flags =
      nvvk_diagnostics_get_minimal_config_flags := by
  refine ⟨rfl, rfl, rfl, rfl⟩

/-- C9: the result-code type has exactly the six codes success,
not-supported, invalid-handle, out-of-memory, device-lost, unknown;
success is 0 and every error code is a distinct strictly negative value;
fallible operations (here `nvvk_low_latency_enable`) signal failure only
through one of these codes — they are total functions, never
exceptions. -/
theorem C9_result_codes :
    NvvkResult.code .NVVK_SUCCESS = 0 ∧
    (∀ r : NvvkResult, r ≠ .NVVK_SUCCESS → r.code < 0) ∧
    Function.Injective NvvkResult.code ∧
    (∀ r : NvvkResult, r ∈ allResults) ∧
    allResults.Nodup ∧ allResults.length = 6 ∧
    (∀ (ctx : LowLatencyCtx) (b : Bool) (m : Nat),
      (nvvk_low_latency_enable ctx b m).1 ∈ allResults) := by
  refine ⟨rfl, by decide, by decide, by decide, by decide, rfl, ?_⟩
  intro ctx b m
  unfold nvvk_low_latency_enable
  split
  · simp [allResults]
  · split
    · simp [allResults]
    · simp [allResults]

/-- Witness for C9 at concrete inputs. -/
theorem C9_result_codes_witness :
    NvvkResult.code .NVVK_ERROR_DEVICE_LOST < 0 ∧
    (nvvk_low_latency_enable ctx0 true 0).1 ∈ allResults :=
  ⟨C9_result_codes.2.1 .NVVK_ERROR_DEVICE_LOST (by decide),
   C9_result_codes.2.2.2.2.2.2 ctx0 true 0⟩

/-- C5: `get_latency_compensation` returns exactly 0 whenever
`mode = Off` or the engine is disabled; otherwise it returns the
(non-negative) compensation offset, which equals `avg_gen_time_us`. -/
theorem C5_latency_compensation (st : EngineState) :
    ((st.mode = .NVVK_FRAME_GEN_OFF ∨ st.enabled = false) →
      nvvk_frame_gen_get_latency_compensation st = 0) ∧
    (st.mode ≠ .NVVK_FRAME_GEN_OFF → st.enabled = true →
      nvvk_frame_gen_get_latency_compensation st =
        st.stats.avg_gen_time_us) := by
  constructor
  · intro h
    simp [nvvk_frame_gen_get_latency_compensation, h]
  · intro h1 h2
    simp [nvvk_frame_gen_get_latency_compensation, h1, h2]

/-- Witness for C5: with `mode = Off` the compensation is 0, and in the
enabled performance-mode state it equals the average generation time. -/
theorem C5_latency_compensation_witness :
    nvvk_frame_gen_get_latency_compensation stOff = 0 ∧
    nvvk_frame_gen_get_latency_compensation stW = stW.stats.avg_gen_time_us :=
  ⟨(C5_latency_compensation stOff).1 (Or.inl rfl),
   (C5_latency_compensation stW).2 (by decide) rfl⟩

/-- C4: recording `PresentEnd` for a frame id before `RenderSubmitStart`
has been recorded for that id is rejected as an invalid-usage error, and
the recorded marker state of every frame id (in particular every other
frame id) is unchanged by the rejected call. -/
theorem C4_present_end_rejected (t : LLTracker) (id : Nat)
    (h : NvvkLatencyMarker.RENDERSUBMIT_START ∉ t.recorded id) :
    (nvvk_low_latency_set_marker t id .PRESENT_END).1 = .invalidUsage ∧
    ∀ j, (nvvk_low_latency_set_marker t id .PRESENT_END).2.recorded j =
      t.recorded j := by
  have hc : canRecord (t.recorded id) .PRESENT_END = false := by
    unfold canRecord requiredBefore
    simp [h]
  unfold nvvk_low_latency_set_marker
  rw [hc]
  simp

/-- Witness for C4: on an empty tracker, recording `PresentEnd` for id 5
is rejected and id 3's row is untouched. -/
theorem C4_present_end_rejected_witness :
    (nvvk_low_latency_set_marker tracker0 5 .PRESENT_END).1 =
      .invalidUsage ∧
    (nvvk_low_latency_set_marker tracker0 5 .PRESENT_END).2.recorded 3 =
      tracker0.recorded 3 :=
  ⟨(C4_present_end_rejected tracker0 5 (by simp [tracker0])).1,
   (C4_present_end_rejected tracker0 5 (by simp [tracker0])).2 3⟩

theorem begin_frame_spec (ctx : LowLatencyCtx)
    (h1 : ctx.tracker.recorded (ctx.currentFrameId + 1) = []) :
    (nvvk_low_latency_begin_frame ctx).1 = ctx.currentFrameId + 1 ∧
    (nvvk_low_latency_begin_frame ctx).2.currentFrameId =
      ctx.currentFrameId + 1 ∧
    (nvvk_low_latency_begin_frame ctx).2.tracker.recorded
      (ctx.currentFrameId + 1) = [.SIMULATION_START] ∧
    ∀ j, j ≠ ctx.currentFrameId + 1 →
      (nvvk_low_latency_begin_frame ctx).2.tracker.recorded j =
        ctx.tracker.recorded j := by
  have hcan :
      canRecord ([] : List NvvkLatencyMarker) .SIMULATION_START = true := rfl
  unfold nvvk_low_latency_begin_frame nvvk_low_latency_set_marker
  simp only [h1, hcan, eq_self_iff_true, if_true]
  refine ⟨trivial, trivial, by simp, ?_⟩
  intro j hj
  simp [hj]

/-- C7: `begin_frame()` returns a frame id strictly greater than the
previous one (by exactly one) and records `SimStart` for the new id; a
second `begin_frame()` without any intervening `PresentEnd` for the first
id still returns a valid, strictly larger new id — progress is never
blocked on finalizing the previous frame. -/
theorem C7_begin_frame (ctx : LowLatencyCtx) (h : FreshIds ctx) :
    (nvvk_low_latency_begin_frame ctx).1 = ctx.currentFrameId + 1 ∧
    ctx.currentFrameId < (nvvk_low_latency_begin_frame ctx).1 ∧
    NvvkLatencyMarker.SIMULATION_START ∈
      (nvvk_low_latency_begin_frame ctx).2.tracker.recorded
        (ctx.currentFrameId + 1) ∧
    NvvkLatencyMarker.PRESENT_END ∉
      (nvvk_low_latency_begin_frame ctx).2.tracker.recorded
        (ctx.currentFrameId + 1) ∧
    (nvvk_low_latency_begin_frame
        (nvvk_low_latency_begin_frame ctx).2).1 =
      ctx.currentFrameId + 2 ∧
    (nvvk_low_latency_begin_frame ctx).1 <
      (nvvk_low_latency_begin_frame
        (nvvk_low_latency_begin_frame ctx).2).1 ∧
    NvvkLatencyMarker.SIMULATION_START ∈
      (nvvk_low_latency_begin_frame
        (nvvk_low_latency_begin_frame ctx).2).2.tracker.recorded
        (ctx.currentFrameId + 2) := by
  obtain ⟨ha, hb, hcrec, hother⟩ :=
    begin_frame_spec ctx (h (ctx.currentFrameId + 1) (by omega))
  have h2 : (nvvk_low_latency_begin_frame ctx).2.tracker.recorded
      ((nvvk_low_latency_begin_frame ctx).2.currentFrameId + 1) = [] := by
    rw [hb, hother (ctx.currentFrameId + 2) (by omega)]
    exact h (ctx.currentFrameId + 2) (by omega)
  obtain ⟨ha2, hb2, hcrec2, _⟩ :=
    begin_frame_spec (nvvk_low_latency_begin_frame ctx).2 h2
  refine ⟨ha, by omega, ?_, ?_, ?_, ?_, ?_⟩
  · rw [hcrec]; simp
  · rw [hcrec]; simp
  · rw [ha2, hb]
  · rw [ha, ha2, hb]; omega
  · rw [hb] at hcrec2
    have : ctx.currentFrameId + 1 + 1 = ctx.currentFrameId + 2 := by omega
    rw [this] at hcrec2
    rw [hcrec2]; simp

/-- Witness for C7 at the freshly initialised context. -/
theorem C7_begin_frame_witness :
    (nvvk_low_latency_begin_frame ctx0).1 = 1 ∧
    NvvkLatencyMarker.SIMULATION_START ∈
      (nvvk_low_latency_begin_frame ctx0).2.tracker.recorded 1 ∧
    (nvvk_low_latency_begin_frame
        (nvvk_low_latency_begin_frame ctx0).2).1 = 2 := by
  have h := C7_begin_frame ctx0 (by intro j hj; rfl)
  exact ⟨h.1, h.2.2.1, h.2.2.2.2.1⟩

theorem step_presented_ids (st : EngineState) (inp : StepInput) :
    (step st inp).1.map Frame.id =
      List.range' st.nextId (step st inp).1.length ∧
    (step st inp).2.nextId = st.nextId + (step st inp).1.length := by
  unfold step
  split
  · simp [List.range']
  · split
    · split
      · simp [List.range']
      · dsimp only
        split
        · simp [generate, List.range']
        · simp [List.range']
    · simp [List.range']

theorem run_presented_ids (st : EngineState) (l : List StepInput) :
    (run st l).1.map Frame.id =
      List.range' st.nextId (run st l).1.length ∧
    (run st l).2.nextId = st.nextId + (run st l).1.length := by
  induction l generalizing st with
  | nil => simp [run, List.range']
  | cons i rest ih =>
    obtain ⟨hs1, hs2⟩ := step_presented_ids st i
    obtain ⟨hr1, hr2⟩ := ih (step st i).2
    rw [hs2] at hr1 hr2
    unfold run
    dsimp only
    constructor
    · rw [List.map_append, hs1, hr1, List.length_append,
        List.range'_append_1]
      congr 1
      omega
    · rw [List.length_append]
      omega

/-- C1: over any run of the presentation sequencer, the frame ids assigned
to presented frames (real or generated) form the consecutive range
starting at the sequencer's next id — each presented frame's id is
exactly one more than the previous one, with no id repeated or skipped;
likewise `begin_frame` always assigns the previous present id plus
exactly one. -/
theorem C1_frame_ids_consecutive (st : EngineState) (l : List StepInput)
    (ctx : LowLatencyCtx) :
    (run st l).1.map Frame.id =
      List.range' st.nextId ((run st l).1.length) ∧
    (nvvk_low_latency_begin_frame ctx).1 = ctx.currentFrameId + 1 ∧
    (nvvk_low_latency_begin_frame ctx).2.currentFrameId =
      ctx.currentFrameId + 1 :=
  ⟨(run_presented_ids st l).1, rfl, rfl⟩

/-- C2: whenever the Interpolator's frame for the interval `(prev, curr)`
is presented, the presented sequence for the step is exactly
`[generated, curr]` (with `prev` already presented upstream), the
generated frame's id is strictly greater than `prev`'s id and strictly
smaller than `curr`'s id. -/
theorem C2_generated_id_between (st : EngineState) (inp : StepInput)
    (prev : Frame)
    (hWF : ∀ p, st.history.head? = some p → p.id + 1 = st.nextId)
    (hprev : st.history.head? = some prev)
    (hmode : st.mode ≠ .NVVK_FRAME_GEN_OFF)
    (hen : st.enabled = true)
    (hcls : inp.cls = .Continuous)
    (hconf : st.conf_floor ≤ computeConfidence inp.field) :
    ∃ g c, (step st inp).1 = [g, c] ∧
      g.is_generated = true ∧ c.is_generated = false ∧
      prev.id < g.id ∧ g.id < c.id := by
  have hp : prev.id + 1 = st.nextId := hWF prev hprev
  have hsp : (generate prev ⟨st.nextId + 1, inp.image, false⟩ inp.field
      st.mode (1 / 2) inp.gen_time_us st.conf_floor st.nextId).should_present
      = true := by
    simp [generate, hconf]
  unfold step
  split
  · next heq =>
      rw [hprev] at heq
      cases heq
  · next prev' heq =>
      rw [hprev] at heq
      injection heq with h
      subst h
      rw [if_pos ⟨hmode, hen⟩]
      split
      · next heq2 => rw [hcls] at heq2; cases heq2
      · dsimp only
        rw [if_pos hsp]
        refine ⟨_, _, rfl, rfl, rfl, ?_, ?_⟩
        · simp [generate]; omega
        · simp [generate]

/-- Witness for C2 at a concrete enabled performance-mode state holding
one real frame with id 0 and a fully confident motion field. -/
theorem C2_generated_id_between_witness :
    ∃ g c, (step stW inpW).1 = [g, c] ∧
      g.is_generated = true ∧ c.is_generated = false ∧
      frame0.id < g.id ∧ g.id < c.id := by
  refine C2_generated_id_between stW inpW frame0 ?_ rfl (by decide) rfl rfl ?_
  · intro p hp
    simp only [stW, frame0, List.head?] at hp
    cases hp
    rfl
  · show stW.conf_floor ≤ computeConfidence inpW.field
    norm_num [stW, inpW, computeConfidence, clamp01]

/-- C3: on a `SceneChange` verdict for a real-frame interval, no generated
frame is presented for that interval, `skipped_frames` increments by
exactly 1, and `scene_change_detected` reads true on exactly the next
stats read and is cleared afterwards — the read after that returns
false (absent a new scene change). -/
theorem C3_scene_change (st : EngineState) (inp : StepInput) (prev : Frame)
    (hprev : st.history.head? = some prev)
    (hmode : st.mode ≠ .NVVK_FRAME_GEN_OFF)
    (hen : st.enabled = true)
    (hcls : inp.cls = .SceneChange) :
    (∀ f ∈ (step st inp).1, f.is_generated = false) ∧
    (step st inp).2.stats.skipped_frames = st.stats.skipped_frames + 1 ∧
    (step st inp).2.stats.generated_frames = st.stats.generated_frames ∧
    (nvvk_frame_gen_get_stats (step st inp).2).1.scene_change_detected =
      true ∧
    (nvvk_frame_gen_get_stats
        (nvvk_frame_gen_get_stats
          (step st inp).2).2).1.scene_change_detected = false := by
  unfold step
  split
  · next heq =>
      rw [hprev] at heq
      cases heq
  · next prev' heq =>
      rw [hprev] at heq
      injection heq with h
      subst h
      rw [if_pos ⟨hmode, hen⟩]
      split
      · dsimp only
        refine ⟨?_, rfl, rfl, rfl, rfl⟩
        intro f hf
        simp only [List.mem_singleton] at hf
        rw [hf]
      · next heq2 => rw [hcls] at heq2; cases heq2

/-- Witness for C3 at the concrete enabled state and a scene-change
submission. -/
theorem C3_scene_change_witness :
    (∀ f ∈ (step stW inpSC).1, f.is_generated = false) ∧
    (step stW inpSC).2.stats.skipped_frames =
      stW.stats.skipped_frames + 1 ∧
    (step stW inpSC).2.stats.generated_frames =
      stW.stats.generated_frames ∧
    (nvvk_frame_gen_get_stats (step stW inpSC).2).1.scene_change_detected =
      true ∧
    (nvvk_frame_gen_get_stats
        (nvvk_frame_gen_get_stats
          (step stW inpSC).2).2).1.scene_change_detected = false :=
  C3_scene_change stW inpSC frame0 rfl (by decide) rfl rfl

theorem pairOf_eq_none_iff (b : FrameHistoryBuffer) :
    pairOf b = none ↔ b.length < 2 := by
  match b with
  | [] => simp [pairOf]
  | [x] => simp [pairOf]
  | x :: y :: rest => simp [pairOf]

theorem length_foldl_push (fs : List Frame) (b : FrameHistoryBuffer)
    (hb : b.length ≤ 2) :
    (fs.foldl (fun acc f => pushFrame f acc) b).length =
      min (b.length + fs.length) 2 := by
  induction fs generalizing b with
  | nil => simpa using by omega
  | cons f rest ih =>
    have hlen : (pushFrame f b).length = min (b.length + 1) 2 := by
      simp [pushFrame]
      omega
    have h2 : (pushFrame f b).length ≤ 2 := by omega
    calc ((f :: rest).foldl (fun acc g => pushFrame g acc) b).length
        = (rest.foldl (fun acc g => pushFrame g acc) (pushFrame f b)).length
          := rfl
      _ = min ((pushFrame f b).length + rest.length) 2 := ih _ h2
      _ = min (b.length + (rest.length + 1)) 2 := by rw [hlen]; omega

theorem step_history_push (st : EngineState) (inp : StepInput) :
    ∃ c : Frame, (step st inp).2.history = pushFrame c st.history := by
  unfold step
  split
  · exact ⟨_, rfl⟩
  · split
    · split
      · exact ⟨_, rfl⟩
      · dsimp only
        split
        · exact ⟨_, rfl⟩
        · exact ⟨_, rfl⟩
    · exact ⟨_, rfl⟩

/-- C6: `pair()` returns `none` exactly when fewer than two real frames
have been pushed since `init` or the last reset; in particular the first
real frame after `init` or a reset yields `pair() = none`, and the
sequencer never presents a generated frame on a step whose post-push
history still has no pair. -/
theorem C6_pair_none_iff :
    (∀ fs : List Frame,
      pairOf (fs.foldl (fun acc f => pushFrame f acc) initBuffer) = none ↔
        fs.length < 2) ∧
    (∀ (b : FrameHistoryBuffer) (f : Frame),
      pairOf (pushFrame f (resetBuffer b)) = none) ∧
    (∀ (st : EngineState) (inp : StepInput),
      pairOf (step st inp).2.history = none →
        ∀ f ∈ (step st inp).1, f.is_generated = false) := by
  refine ⟨?_, ?_, ?_⟩
  · intro fs
    rw [pairOf_eq_none_iff, length_foldl_push fs initBuffer (by simp [initBuffer])]
    simp [initBuffer]
  · intro b f
    rfl
  · intro st inp hnone f hf
    obtain ⟨c, hc⟩ := step_history_push st inp
    rw [hc, pairOf_eq_none_iff] at hnone
    have hempty : st.history = [] := by
      cases hh : st.history with
      | nil => rfl
      | cons p t =>
        rw [hh] at hnone
        simp [pushFrame] at hnone
    unfold step at hf
    rw [hempty] at hf
    simp only [List.head?_nil] at hf
    simp only [List.mem_singleton] at hf
    rw [hf]

/-- Witness for C6: one push after init leaves `pair() = none`, and the
step from the empty-history state presents no generated frame. -/
theorem C6_pair_none_iff_witness :
    pairOf ([frame0].foldl (fun acc f => pushFrame f acc) initBuffer) =
      none ∧
    ∀ f ∈ (step stOff inpW).1, f.is_generated = false :=
  ⟨C6_pair_none_iff.1 [frame0] |>.mpr (by simp),
   C6_pair_none_iff.2.2 stOff inpW (by rfl)⟩

theorem computeConfidence_bounds (field : MotionField) :
    0 ≤ computeConfidence field ∧ computeConfidence field ≤ 1 := by
  unfold computeConfidence
  split
  · norm_num
  · next hlen =>
    have hpos : (0 : ℚ) < (field.length : ℚ) := by
      have h := Nat.pos_of_ne_zero hlen
      exact_mod_cast h
    constructor
    · apply div_nonneg _ hpos.le
      apply List.sum_nonneg
      intro x hx
      obtain ⟨b, _, rfl⟩ := List.mem_map.mp hx
      exact le_max_left 0 _
    · rw [div_le_one hpos]
      have hle : ∀ x ∈ (field.filter (fun b => b.valid)).map
          (fun b => clamp01 b.conf), x ≤ (1 : ℚ) := by
        intro x hx
        obtain ⟨b, _, rfl⟩ := List.mem_map.mp hx
        exact max_le (by norm_num) (min_le_left _ _)
      have h1 := List.sum_le_card_nsmul _ _ hle
      rw [nsmul_eq_mul, mul_one] at h1
      have h2 : (((field.filter (fun b => b.valid)).map
          (fun b => clamp01 b.conf)).length : ℚ) ≤ (field.length : ℚ) := by
        have h3 := List.length_filter_le (fun b => b.valid) field
        simp only [List.length_map]
        exact_mod_cast h3
      linarith

theorem ema_bounds (alpha old x : ℚ) (ha0 : 0 ≤ alpha) (ha1 : alpha ≤ 1)
    (ho0 : 0 ≤ old) (ho1 : old ≤ 1) (hx0 : 0 ≤ x) (hx1 : x ≤ 1) :
    0 ≤ ema alpha old x ∧ ema alpha old x ≤ 1 := by
  unfold ema
  constructor <;> nlinarith

/-- C8: `generate` always returns a confidence inside the closed interval
`[0, 1]`, and the stats confidence (an EMA of generated confidences with
a smoothing factor in `[0, 1]`) stays inside `[0, 1]` across every
sequencer step. -/
theorem C8_confidence_in_unit_interval :
    (∀ (prev curr : Frame) (field : MotionField) (mode : NvvkFrameGenMode)
        (t : ℚ) (gus : Nat) (cf : ℚ) (nid : Nat),
      0 ≤ (generate prev curr field mode t gus cf nid).confidence ∧
      (generate prev curr field mode t gus cf nid).confidence ≤ 1) ∧
    (∀ (st : EngineState) (inp : StepInput),
      0 ≤ st.ema_alpha → st.ema_alpha ≤ 1 →
      0 ≤ st.stats.confidence → st.stats.confidence ≤ 1 →
      0 ≤ (step st inp).2.stats.confidence ∧
        (step st inp).2.stats.confidence ≤ 1) := by
  refine ⟨?_, ?_⟩
  · intro prev curr field mode t gus cf nid
    exact computeConfidence_bounds field
  · intro st inp ha0 ha1 hc0 hc1
    unfold step
    split
    · exact ⟨hc0, hc1⟩
    · split
      · split
        · exact ⟨hc0, hc1⟩
        · dsimp only
          split
          · have hg := computeConfidence_bounds inp.field
            have he := ema_bounds st.ema_alpha st.stats.confidence
              (computeConfidence inp.field) ha0 ha1 hc0 hc1 hg.1 hg.2
            simpa [generate] using he
          · exact ⟨hc0, hc1⟩
      · exact ⟨hc0, hc1⟩

/-- Witness for C8: the empty motion field and the concrete enabled state
with smoothing factor one half. -/
theorem C8_confidence_in_unit_interval_witness :
    (0 ≤ (generate frame0 frame0 [] .NVVK_FRAME_GEN_QUALITY 0 0 0
        1).confidence ∧
      (generate frame0 frame0 [] .NVVK_FRAME_GEN_QUALITY 0 0 0
        1).confidence ≤ 1) ∧
    (0 ≤ (step stW inpW).2.stats.confidence ∧
      (step stW inpW).2.stats.confidence ≤ 1) :=
  ⟨C8_confidence_in_unit_interval.1 frame0 frame0 [] _ 0 0 0 1,
   C8_confidence_in_unit_interval.2 stW inpW (by norm_num [stW])
     (by norm_num [stW]) (by norm_num [stW, statsInit])
     (by norm_num [stW, statsInit])⟩

end Nvvk
